import Mathlib

/-!
Shallow embedding of `src/server.py` (a TradingView → MT4 signal bridge):
a bounded FIFO queue of signal ids (`QUEUE = deque(maxlen=200)`), a dict of
signal records (`SIGNALS`), and four HTTP handlers (`/tv`, `/next`, `/pop`,
`/tg`) plus an outbound Telegram client (`tg_api`, `tg_send_approval`).

Conventions of the embedding:
* JSON string fields that may be absent are `Option String`; `data.get(k)`
  is field access, `data.get(k) or ""` is `·.getD ""`.
* `price` is stored verbatim by the server, so it is modelled as the raw
  optional value `Option String`.
* `str(uuid.uuid4())` and `int(time.time())` are nondeterministic inputs,
  so each `/tv` call takes the fresh id and the timestamp as parameters.
* The outcome of every network interaction with the Telegram API is an
  oracle parameter `o : Nat → TgOutcome`; the n-th `tg_api` invocation of a
  handler observes `o n`.  Handlers return the performed calls in a list.
-/

/-- Environment configuration (`SECRET`, `TG_BOT_TOKEN`, `TG_CHAT_ID`),
each defaulting to the empty string when unset. -/
structure Config where
  SECRET : String
  TG_BOT_TOKEN : String
  TG_CHAT_ID : String
deriving DecidableEq

/-- `QUEUE = deque(maxlen=200)`: the queue capacity. -/
def QUEUE_MAXLEN : Nat := 200

/-- One signal record, as built in `tv_webhook` (`src/server.py:152-163`). -/
structure Signal where
  id : String
  symbol : String
  side : String
  ordertype : String
  timeframe : String
  strategy : String
  price : Option String
  ts : Nat
  status : String
deriving DecidableEq

/-- The shared mutable state: `QUEUE` (ids in FIFO order, head first) and
`SIGNALS` (an insertion-ordered dict, modelled as an association list). -/
structure St where
  queue : List String
  signals : List (String × Signal)
deriving DecidableEq

/-- Python `str.lower()`, on the ASCII range the handlers rely on
(`"buy"`, `"sell"`, order types). -/
def pyLower (s : String) : String := String.mk (s.data.map Char.toLower)

/-- Python `str.strip()`: drop whitespace from both ends. -/
def pyStrip (s : String) : String :=
  String.mk (((s.data.dropWhile Char.isWhitespace).reverse.dropWhile Char.isWhitespace).reverse)

/-- `SIGNALS.get(sid)`. -/
def dictGet (k : String) : List (String × Signal) → Option Signal
  | [] => none
  | (k', v') :: rest => if k' = k then some v' else dictGet k rest

/-- `SIGNALS[sid] = signal`: overwrite in place if the key exists,
otherwise append (Python dicts preserve insertion order). -/
def dictInsert (k : String) (v : Signal) : List (String × Signal) → List (String × Signal)
  | [] => [(k, v)]
  | (k', v') :: rest => if k' = k then (k, v) :: rest else (k', v') :: dictInsert k v rest

/-- `SIGNALS.pop(sid, None)`: remove the entry for the key if present. -/
def dictPop (k : String) : List (String × Signal) → List (String × Signal)
  | [] => []
  | (k', v') :: rest => if k' = k then rest else (k', v') :: dictPop k rest

/-- `QUEUE.remove(sid)` (with the `ValueError` for an absent element
swallowed by the caller's `try/except`): drop the first occurrence. -/
def queueRemove (x : String) : List String → List String
  | [] => []
  | y :: ys => if y = x then ys else y :: queueRemove x ys

/-- `QUEUE.append(sid)` on a `deque(maxlen=200)`: append at the right and,
if the length now exceeds the capacity, silently drop the leftmost. -/
def dequeAppend (q : List String) (x : String) : List String :=
  let q' := q ++ [x]
  if QUEUE_MAXLEN < q'.length then q'.tail else q'

/-- Outcome of one physical interaction with the Telegram API inside
`tg_api`'s `try` block: either `r.json()` produced a value, or
`requests.post`/`r.json()` raised. -/
inductive TgOutcome where
  | response (raw : String)
  | exception (e : String)

/-- What `tg_api` returns to its caller: the parsed server JSON, or the
locally synthesised error dict (`{"ok": False, "error": ...}`). -/
inductive TgApiResult where
  | fromServer (raw : String)
  | errorDict (error : String)
deriving DecidableEq

/-- Payload of a Telegram Bot API call as built by the handlers.
An inline-keyboard button is a `(text, callback_data)` pair. -/
inductive TgPayload where
  | sendMessage (chat_id : String) (text : String) (parse_mode : Option String)
      (keyboard : Option (List (String × String)))
  | answerCallbackQuery (callback_query_id : Option String) (text : String)
deriving DecidableEq

/-- A performed `tg_api` invocation: HTTP method name, payload, and the
value `tg_api` returned for it. -/
structure TgCall where
  method : String
  payload : TgPayload
  result : TgApiResult
deriving DecidableEq

/-- `tg_api` (`src/server.py:30-44`): early-out if `TG_BOT_TOKEN` is unset,
otherwise perform the network call; any exception is caught and turned
into an error dict. -/
def tg_api (cfg : Config) (outcome : TgOutcome) (_method : String) (_payload : TgPayload) :
    TgApiResult :=
  if cfg.TG_BOT_TOKEN = "" then .errorDict "TG_BOT_TOKEN missing"
  else
    match outcome with
    | .response raw => .fromServer raw
    | .exception e => .errorDict ("exception: " ++ e)

/-- `tg_send_approval` (`src/server.py:47-90`): no-op when `TG_CHAT_ID` is
unset; otherwise one `sendMessage` with the approval text and the
ACEPTAR/DENEGAR inline keyboard. -/
def tg_send_approval (cfg : Config) (outcome : TgOutcome) (signal : Signal) : List TgCall :=
  if cfg.TG_CHAT_ID = "" then []
  else
    let sid := signal.id
    let symbol := signal.symbol
    let side := signal.side
    let ordertype := signal.ordertype
    let timeframe := signal.timeframe
    let strategy := signal.strategy
    let price := signal.price
    let priceLine :=
      match price with
      | some p => if p ≠ "" then s!"*Price:* {p}\n" else ""
      | none => ""
    let txt :=
      "📌 *Señal pendiente*\n" ++
      s!"*Symbol:* {symbol}\n" ++
      s!"*Side:* {side}\n" ++
      s!"*Type:* {ordertype}\n" ++
      priceLine ++
      s!"*TF:* {timeframe}\n" ++
      s!"*Strategy:* {strategy}\n\n" ++
      "Responde con los botones:"
    let keyboard := [("✅ ACEPTAR", "APPROVE:" ++ sid), ("❌ DENEGAR", "DENY:" ++ sid)]
    let p := TgPayload.sendMessage cfg.TG_CHAT_ID txt (some "Markdown") (some keyboard)
    [⟨"sendMessage", p, tg_api cfg outcome "sendMessage" p⟩]

/-- Body of a `POST /tv` request; every field is an optional JSON string. -/
structure TvRequest where
  secret : Option String
  symbol : Option String
  side : Option String
  ordertype : Option String
  timeframe : Option String
  strategy : Option String
  price : Option String
deriving DecidableEq

/-- Response of `POST /tv`: either `bad(msg, code)` or the success body
`{"ok": True, "id": sid, "pending": len(QUEUE)}`. -/
inductive TvResponse where
  | bad (code : Nat) (error : String)
  | ok (id : String) (pending : Nat)
deriving DecidableEq

/-- Result of one `tv_webhook` request: new state, HTTP response, and the
outbound Telegram invocations it performed. -/
structure TvResult where
  st : St
  resp : TvResponse
  calls : List TgCall

/-- `tv_webhook` (`src/server.py:128-171`).  `freshId` stands for
`str(uuid.uuid4())` and `now` for `int(time.time())`. -/
def tv_webhook (cfg : Config) (o : Nat → TgOutcome) (freshId : String) (now : Nat)
    (req : TvRequest) (st : St) : TvResult :=
  if cfg.SECRET = "" then ⟨st, .bad 500 "server SECRET not set", []⟩
  else if req.secret ≠ some cfg.SECRET then ⟨st, .bad 401 "unauthorized", []⟩
  else
    let symbol := pyStrip (req.symbol.getD "")
    let side := pyStrip (pyLower (req.side.getD ""))
    let ordertype := pyStrip (pyLower (req.ordertype.getD ""))
    let timeframe := pyStrip (req.timeframe.getD "")
    let strategy := pyStrip (req.strategy.getD "")
    let price := req.price
    if symbol = "" then ⟨st, .bad 400 "missing symbol", []⟩
    else if ¬(side = "buy" ∨ side = "sell") then ⟨st, .bad 400 "invalid side", []⟩
    else if ordertype = "" then ⟨st, .bad 400 "missing ordertype", []⟩
    else
      let sid := freshId
      let signal : Signal :=
        { id := sid, symbol := symbol, side := side, ordertype := ordertype,
          timeframe := timeframe, strategy := strategy, price := price,
          ts := now, status := "pending" }
      let signals' := dictInsert sid signal st.signals
      let queue' := dequeAppend st.queue sid
      ⟨⟨queue', signals'⟩, .ok sid queue'.length, tg_send_approval cfg (o 0) signal⟩

/-- Response of `GET /next`: always HTTP 200, `{"ok": True, "signal": ...}`. -/
structure NextResponse where
  ok : Bool
  signal : Option Signal
deriving DecidableEq

/-- `next_signal` (`src/server.py:177-192`): peek at the queue head; if its
record is gone from `SIGNALS`, pop it from the queue and report `null`. -/
def next_signal (st : St) : St × NextResponse :=
  match st.queue with
  | [] => (st, ⟨true, none⟩)
  | sid :: rest =>
    match dictGet sid st.signals with
    | none => (⟨rest, st.signals⟩, ⟨true, none⟩)
    | some sig => (st, ⟨true, some sig⟩)

/-- Body of a `POST /pop` request. -/
structure PopRequest where
  secret : Option String
  id : Option String
deriving DecidableEq

/-- Response of `POST /pop`. -/
inductive PopResponse where
  | bad (code : Nat) (error : String)
  | ok (pending : Nat)
deriving DecidableEq

/-- `pop_signal` (`src/server.py:198-214`).  Note the secret check is a bare
`data.get("secret") != SECRET` with no guard against an unset `SECRET`,
and `if not sid` treats both a missing and an empty id as missing. -/
def pop_signal (cfg : Config) (req : PopRequest) (st : St) : St × PopResponse :=
  if req.secret ≠ some cfg.SECRET then (st, .bad 401 "unauthorized")
  else
    let sid := req.id
    if sid = none ∨ sid = some "" then (st, .bad 400 "missing id")
    else
      let sidv := sid.getD ""
      let queue' := queueRemove sidv st.queue
      let signals' := dictPop sidv st.signals
      (⟨queue', signals'⟩, .ok queue'.length)

/-- The data of a `callback_query` in a Telegram update, after the
defensive unwrapping the handler performs: `id := cq.get("id")`,
`data := cq.get("data", "")`, and
`chat_id := str(cq.get("message", \x7b\x7d).get("chat", \x7b\x7d).get("id", ""))`. -/
structure CallbackQuery where
  id : Option String
  data : String
  chat_id : String
deriving DecidableEq

/-- A `POST /tg` update body: `upd.get("callback_query")`. -/
structure TgUpdate where
  callback_query : Option CallbackQuery
deriving DecidableEq

/-- The HTTP reply of `POST /tg`: status code and the `ok` field of the body. -/
structure TgHttpResponse where
  status : Nat
  ok : Bool
deriving DecidableEq

/-- Result of one `telegram_webhook` request. -/
structure TgResult where
  st : St
  resp : TgHttpResponse
  calls : List TgCall

/-- Helper for `data.split(":", 1)`: break a character list at the first
colon, returning the parts before and after it. -/
def breakAtColon : List Char → Option (List Char × List Char)
  | [] => none
  | c :: cs =>
    if c = ':' then some ([], cs)
    else
      match breakAtColon cs with
      | none => none
      | some (l, r) => some (c :: l, r)

/-- `data.split(":", 1)`: split at the first colon (identity on the whole
string when no colon is present; the handler only calls it after checking
`":" in data`). -/
def splitFirstColon (d : String) : String × String :=
  match breakAtColon d.data with
  | none => (d, "")
  | some (l, r) => (String.mk l, String.mk r)

/-- `telegram_webhook` (`src/server.py:220-271`): the approval-callback
handler.  Every branch replies HTTP 200 `{"ok": True}`. -/
def telegram_webhook (cfg : Config) (o : Nat → TgOutcome) (upd : TgUpdate) (st : St) :
    TgResult :=
  match upd.callback_query with
  | none => ⟨st, ⟨200, true⟩, []⟩
  | some cq =>
    let cb_id := cq.id
    let d := cq.data
    let chat_id := cq.chat_id
    if cfg.TG_CHAT_ID ≠ "" ∧ chat_id ≠ cfg.TG_CHAT_ID then
      let p := TgPayload.answerCallbackQuery cb_id "No autorizado"
      ⟨st, ⟨200, true⟩, [⟨"answerCallbackQuery", p, tg_api cfg (o 0) "answerCallbackQuery" p⟩]⟩
    else if ¬ d.data.contains ':' then
      let p := TgPayload.answerCallbackQuery cb_id "Acción inválida"
      ⟨st, ⟨200, true⟩, [⟨"answerCallbackQuery", p, tg_api cfg (o 0) "answerCallbackQuery" p⟩]⟩
    else
      let parts := splitFirstColon d
      let action := parts.1
      let sid := parts.2
      match dictGet sid st.signals with
      | none =>
        let p := TgPayload.answerCallbackQuery cb_id "Señal no encontrada"
        ⟨st, ⟨200, true⟩, [⟨"answerCallbackQuery", p, tg_api cfg (o 0) "answerCallbackQuery" p⟩]⟩
      | some sig =>
        if action = "APPROVE" then
          let sig' := { sig with status := "approved" }
          let signals' := dictInsert sid sig' st.signals
          let p1 := TgPayload.answerCallbackQuery cb_id "✅ Aceptada"
          let p2 := TgPayload.sendMessage cfg.TG_CHAT_ID
            "✅ Señal aprobada. MT4 puede ejecutar en sesión." none none
          ⟨⟨st.queue, signals'⟩, ⟨200, true⟩,
            [⟨"answerCallbackQuery", p1, tg_api cfg (o 0) "answerCallbackQuery" p1⟩,
             ⟨"sendMessage", p2, tg_api cfg (o 1) "sendMessage" p2⟩]⟩
        else if action = "DENY" then
          let sig' := { sig with status := "denied" }
          let signals₁ := dictInsert sid sig' st.signals
          let queue' := queueRemove sid st.queue
          let signals' := dictPop sid signals₁
          let p1 := TgPayload.answerCallbackQuery cb_id "❌ Denegada"
          let p2 := TgPayload.sendMessage cfg.TG_CHAT_ID "❌ Señal denegada y removida." none none
          ⟨⟨queue', signals'⟩, ⟨200, true⟩,
            [⟨"answerCallbackQuery", p1, tg_api cfg (o 0) "answerCallbackQuery" p1⟩,
             ⟨"sendMessage", p2, tg_api cfg (o 1) "sendMessage" p2⟩]⟩
        else
          let p := TgPayload.answerCallbackQuery cb_id "Acción inválida"
          ⟨st, ⟨200, true⟩, [⟨"answerCallbackQuery", p, tg_api cfg (o 0) "answerCallbackQuery" p⟩]⟩

/-- One inbound HTTP request, as far as it can affect the shared state. -/
inductive Op where
  | tv (o : Nat → TgOutcome) (freshId : String) (now : Nat) (req : TvRequest)
  | next
  | pop (req : PopRequest)
  | tg (o : Nat → TgOutcome) (upd : TgUpdate)

/-- The state transition performed by one request. -/
def applyOp (cfg : Config) (st : St) : Op → St
  | .tv o freshId now req => (tv_webhook cfg o freshId now req st).st
  | .next => (next_signal st).1
  | .pop req => (pop_signal cfg req st).1
  | .tg o upd => (telegram_webhook cfg o upd st).st

/-- Process start: empty queue, empty store. -/
def initSt : St := ⟨[], []⟩

/-- State after serving a sequence of requests from process start. -/
def run (cfg : Config) (ops : List Op) : St := ops.foldl (applyOp cfg) initSt

/-! ### Helper lemmas about the dict and queue primitives -/

theorem dictGet_dictInsert (k : String) (v : Signal) (l : List (String × Signal)) :
    dictGet k (dictInsert k v l) = some v := by
  induction l with
  | nil => simp [dictGet, dictInsert]
  | cons p rest ih =>
    obtain ⟨k', v'⟩ := p
    by_cases h : k' = k
    · simp [dictGet, dictInsert, h]
    · simp [dictGet, dictInsert, h, ih]

theorem mem_dictInsert (p : String × Signal) (k : String) (v : Signal)
    (l : List (String × Signal)) (hp : p ∈ dictInsert k v l) : p = (k, v) ∨ p ∈ l := by
  induction l with
  | nil =>
    simp only [dictInsert, List.mem_singleton] at hp
    exact .inl hp
  | cons q rest ih =>
    obtain ⟨k', v'⟩ := q
    by_cases h : k' = k
    · simp only [dictInsert, if_pos h, List.mem_cons] at hp
      rcases hp with hp | hp
      · exact .inl hp
      · exact .inr (List.mem_cons_of_mem _ hp)
    · simp only [dictInsert, if_neg h, List.mem_cons] at hp
      rcases hp with hp | hp
      · exact .inr (hp ▸ List.mem_cons_self _ _)
      · rcases ih hp with hp | hp
        · exact .inl hp
        · exact .inr (List.mem_cons_of_mem _ hp)

theorem mem_dictPop (p : String × Signal) (k : String) (l : List (String × Signal))
    (hp : p ∈ dictPop k l) : p ∈ l := by
  induction l with
  | nil => simp [dictPop] at hp
  | cons q rest ih =>
    obtain ⟨k', v'⟩ := q
    by_cases h : k' = k
    · simp only [dictPop, if_pos h] at hp
      exact List.mem_cons_of_mem _ hp
    · simp only [dictPop, if_neg h, List.mem_cons] at hp
      rcases hp with hp | hp
      · exact hp ▸ List.mem_cons_self _ _
      · exact List.mem_cons_of_mem _ (ih hp)

theorem mem_dictPop_dictInsert (p : String × Signal) (k : String) (v : Signal)
    (l : List (String × Signal)) (hp : p ∈ dictPop k (dictInsert k v l)) : p ∈ l := by
  induction l with
  | nil => simp [dictInsert, dictPop] at hp
  | cons q rest ih =>
    obtain ⟨k', v'⟩ := q
    by_cases h : k' = k
    · simp only [dictInsert, if_pos h, dictPop, if_pos rfl] at hp
      exact List.mem_cons_of_mem _ hp
    · simp only [dictInsert, if_neg h, dictPop, if_neg h, List.mem_cons] at hp
      rcases hp with hp | hp
      · exact hp ▸ List.mem_cons_self _ _
      · exact List.mem_cons_of_mem _ (ih hp)

theorem dictGet_eq_none_of_not_mem_keys (k : String) (l : List (String × Signal))
    (h : k ∉ l.map Prod.fst) : dictGet k l = none := by
  induction l with
  | nil => rfl
  | cons q rest ih =>
    obtain ⟨k', v'⟩ := q
    simp only [List.map_cons, List.mem_cons, not_or] at h
    simp only [dictGet, if_neg (fun hk : k' = k => h.1 hk.symm), ih h.2]

theorem dictGet_dictPop_dictInsert (k : String) (v : Signal) (l : List (String × Signal))
    (h : (l.map Prod.fst).count k ≤ 1) :
    dictGet k (dictPop k (dictInsert k v l)) = none := by
  induction l with
  | nil => simp [dictInsert, dictPop, dictGet]
  | cons q rest ih =>
    obtain ⟨k', v'⟩ := q
    by_cases hk : k' = k
    · subst hk
      simp only [dictInsert, if_pos rfl, dictPop, if_pos rfl]
      apply dictGet_eq_none_of_not_mem_keys
      intro hmem
      have h1 : (rest.map Prod.fst).count k' ≠ 0 := fun h0 => (List.count_eq_zero.mp h0) hmem
      simp [List.count_cons] at h
      omega
    · simp only [dictInsert, if_neg hk, dictPop, if_neg hk, dictGet, if_neg hk]
      apply ih
      have hk' : ¬ k = k' := fun hh => hk hh.symm
      simp [List.map_cons, List.count_cons, hk'] at h
      exact h

theorem not_mem_queueRemove (x : String) (q : List String) (h : q.count x ≤ 1) :
    x ∉ queueRemove x q := by
  induction q with
  | nil => simp [queueRemove]
  | cons y ys ih =>
    by_cases hy : y = x
    · subst hy
      simp only [queueRemove, if_pos rfl]
      intro hmem
      have h1 : ys.count y ≠ 0 := fun h0 => (List.count_eq_zero.mp h0) hmem
      simp [List.count_cons] at h
      omega
    · simp only [queueRemove, if_neg hy, List.mem_cons, not_or]
      have hy' : ¬ x = y := fun hh => hy hh.symm
      refine ⟨hy', ih ?_⟩
      simp [List.count_cons, hy'] at h
      exact h

theorem dictInsert_dictInsert (k : String) (v : Signal) (l : List (String × Signal)) :
    dictInsert k v (dictInsert k v l) = dictInsert k v l := by
  induction l with
  | nil => simp [dictInsert]
  | cons q rest ih =>
    obtain ⟨k', v'⟩ := q
    by_cases h : k' = k
    · simp [dictInsert, h]
    · simp [dictInsert, h, ih]

theorem dictGet_mem (k : String) (v : Signal) (l : List (String × Signal))
    (h : dictGet k l = some v) : (k, v) ∈ l := by
  induction l with
  | nil => simp [dictGet] at h
  | cons q rest ih =>
    obtain ⟨k', v'⟩ := q
    by_cases hk : k' = k
    · simp only [dictGet, if_pos hk] at h
      obtain rfl : v' = v := Option.some.inj h
      exact List.mem_cons.mpr (.inl (by rw [hk]))
    · simp only [dictGet, if_neg hk] at h
      exact List.mem_cons_of_mem _ (ih h)

/-! ### Helper lemmas about the handlers -/

theorem next_signal_fst_signals (st : St) : (next_signal st).1.signals = st.signals := by
  unfold next_signal
  split
  · rfl
  · split <;> rfl

/-- No handler can leave a record with status `"denied"` in the store:
one request-step preserves the invariant. -/
theorem noDenied_applyOp (cfg : Config) (st : St) (op : Op)
    (h : ∀ p ∈ st.signals, p.2.status ≠ "denied") :
    ∀ p ∈ (applyOp cfg st op).signals, p.2.status ≠ "denied" := by
  cases op with
  | tv o freshId now req =>
    dsimp only [applyOp]
    unfold tv_webhook
    dsimp only
    split_ifs
    any_goals exact h
    intro p hp
    rcases mem_dictInsert p freshId _ st.signals hp with rfl | hp
    · exact (by decide : ("pending" : String) ≠ "denied")
    · exact h p hp
  | next =>
    dsimp only [applyOp]
    rw [next_signal_fst_signals]
    exact h
  | pop req =>
    dsimp only [applyOp]
    unfold pop_signal
    dsimp only
    split_ifs
    any_goals exact h
    intro p hp
    exact h p (mem_dictPop p _ st.signals hp)
  | tg o upd =>
    dsimp only [applyOp]
    unfold telegram_webhook
    split
    · exact h
    · dsimp only
      split_ifs
      any_goals exact h
      all_goals split
      any_goals exact h
      · intro p hp
        rcases mem_dictInsert p _ _ st.signals hp with rfl | hp
        · exact (by decide : ("approved" : String) ≠ "denied")
        · exact h p hp
      · intro p hp
        exact h p (mem_dictPop_dictInsert p _ _ st.signals hp)

theorem noDenied_foldl (cfg : Config) (ops : List Op) (st : St)
    (h : ∀ p ∈ st.signals, p.2.status ≠ "denied") :
    ∀ p ∈ (ops.foldl (applyOp cfg) st).signals, p.2.status ≠ "denied" := by
  induction ops generalizing st with
  | nil => exact h
  | cons op rest ih => exact ih _ (noDenied_applyOp cfg st op h)

theorem noDenied_run (cfg : Config) (ops : List Op) :
    ∀ p ∈ (run cfg ops).signals, p.2.status ≠ "denied" :=
  noDenied_foldl cfg ops initSt (by simp [initSt])

theorem next_signal_some (st : St) (sig : Signal)
    (h : (next_signal st).2.signal = some sig) : ∃ sid, (sid, sig) ∈ st.signals := by
  rcases hq : st.queue with _ | ⟨sid, rest⟩
  · unfold next_signal at h
    rw [hq] at h
    simp at h
  · unfold next_signal at h
    rw [hq] at h
    dsimp only at h
    rcases hget : dictGet sid st.signals with _ | s
    · rw [hget] at h
      simp at h
    · rw [hget] at h
      simp only [NextResponse.mk.injEq, Option.some.injEq] at h
      exact ⟨sid, h ▸ dictGet_mem sid s st.signals hget⟩

theorem tv_oracle_irrel (cfg : Config) (o₁ o₂ : Nat → TgOutcome) (freshId : String)
    (now : Nat) (req : TvRequest) (st : St) :
    (tv_webhook cfg o₁ freshId now req st).st = (tv_webhook cfg o₂ freshId now req st).st ∧
    (tv_webhook cfg o₁ freshId now req st).resp =
      (tv_webhook cfg o₂ freshId now req st).resp := by
  unfold tv_webhook
  dsimp only
  split_ifs <;> exact ⟨rfl, rfl⟩

theorem tg_oracle_irrel (cfg : Config) (o₁ o₂ : Nat → TgOutcome) (upd : TgUpdate) (st : St) :
    (telegram_webhook cfg o₁ upd st).st = (telegram_webhook cfg o₂ upd st).st ∧
    (telegram_webhook cfg o₁ upd st).resp = (telegram_webhook cfg o₂ upd st).resp := by
  unfold telegram_webhook
  split
  · exact ⟨rfl, rfl⟩
  · dsimp only
    split_ifs
    all_goals first
      | exact ⟨rfl, rfl⟩
      | (split <;> exact ⟨rfl, rfl⟩)

/-! ### Concrete material used by witnesses and counterexamples -/

/-- An oracle under which every outbound Telegram call raises. -/
def oW : Nat → TgOutcome := fun _ => TgOutcome.exception "network unreachable"

/-- A configuration with a secret but no Telegram credentials. -/
def cfgW : Config := ⟨"s", "", ""⟩

/-- A configuration with a secret, a bot token and an approver chat id. -/
def cfgTg : Config := ⟨"s", "bot-token", "12345"⟩

/-- A well-formed market-order ingestion request. -/
def reqW : TvRequest :=
  ⟨some "s", some "EURUSD", some "buy", some "market", none, none, none⟩

/-- The signal record `tv_webhook` builds for `reqW` with fresh id `"A"`
at time 0. -/
def sigW : Signal :=
  { id := "A", symbol := "EURUSD", side := "buy", ordertype := "market",
    timeframe := "", strategy := "", price := none, ts := 0, status := "pending" }

/-- A state holding the single pending signal `"A"`. -/
def stW : St := ⟨["A"], [("A", sigW)]⟩

/-! ### Claims -/

/-- C2: the claim states that when the configured shared secret is empty or
unset, authorization is denied for every supplied secret (including an
empty one) on both `POST /tv` and `POST /pop`, with no state mutation.
The code violates this on `POST /pop`: with `SECRET = ""`, a request
supplying `secret: ""` satisfies `data.get("secret") != SECRET` being
false, is authorized, and removes the signal from both queue and store. -/
theorem c2_empty_secret_pop_authorized :
    pop_signal ⟨"", "", ""⟩ ⟨some "", some "A"⟩ stW = (⟨[], []⟩, PopResponse.ok 0) := by
  rfl

/-- C3: a `POST /tg` approval callback whose chat identity differs from the
configured (nonempty) approver chat identity changes no state, is answered
HTTP 200 `ok: true`, and the only outbound call is the "No autorizado"
acknowledgment — for every action and signal id the payload may carry. -/
theorem c3_unauthorized_chat_no_state_change (cfg : Config) (o : Nat → TgOutcome)
    (upd : TgUpdate) (st : St) (cq : CallbackQuery)
    (hcq : upd.callback_query = some cq)
    (hconf : cfg.TG_CHAT_ID ≠ "")
    (hchat : cq.chat_id ≠ cfg.TG_CHAT_ID) :
    (telegram_webhook cfg o upd st).st = st ∧
    (telegram_webhook cfg o upd st).resp = ⟨200, true⟩ ∧
    (telegram_webhook cfg o upd st).calls.map (fun c => (c.method, c.payload)) =
      [("answerCallbackQuery", TgPayload.answerCallbackQuery cq.id "No autorizado")] := by
  unfold telegram_webhook
  rw [hcq]
  dsimp only
  rw [if_pos ⟨hconf, hchat⟩]
  exact ⟨rfl, rfl, rfl⟩

/-- A callback from chat 999: not the configured approver 12345. -/
def cqBad : CallbackQuery := ⟨some "cb1", "APPROVE:A", "999"⟩

/-- Witness for C3 at a concrete unauthorized callback. -/
theorem c3_witness :
    (telegram_webhook cfgTg oW ⟨some cqBad⟩ stW).st = stW ∧
    (telegram_webhook cfgTg oW ⟨some cqBad⟩ stW).resp = ⟨200, true⟩ ∧
    (telegram_webhook cfgTg oW ⟨some cqBad⟩ stW).calls.map (fun c => (c.method, c.payload)) =
      [("answerCallbackQuery", TgPayload.answerCallbackQuery cqBad.id "No autorizado")] :=
  c3_unauthorized_chat_no_state_change cfgTg oW ⟨some cqBad⟩ stW cqBad rfl
    (by decide) (by decide)

/-- A non-market ingestion request with no price at all. -/
def reqNoPrice : TvRequest :=
  ⟨some "s", some "EURUSD", some "buy", some "buy_limit", none, none, none⟩

/-- C4 counterexample: the claim states that `orderType != market` with a
missing price yields a validation error and no mutation.  At this concrete
input (`ordertype = "buy_limit"`, no `price`), `tv_webhook` instead
answers success and mutates the state. -/
theorem c4_counterexample :
    (tv_webhook cfgW oW "id1" 7 reqNoPrice initSt).resp = TvResponse.ok "id1" 1 ∧
    (tv_webhook cfgW oW "id1" 7 reqNoPrice initSt).st ≠ initSt :=
  ⟨rfl, fun hc => absurd (congrArg St.queue hc) (by decide)⟩

/-- C4 amended: `tv_webhook` performs no price validation at all.  For
every request whose secret, symbol, side and ordertype pass the checks —
market or not — and for every `price` value (missing or arbitrary), the
ingestion succeeds and the signal is stored with the supplied price
verbatim. -/
theorem c4_no_price_validation (cfg : Config) (o : Nat → TgOutcome) (freshId : String)
    (now : Nat) (req : TvRequest) (st : St)
    (hsecret : cfg.SECRET ≠ "")
    (hauth : req.secret = some cfg.SECRET)
    (hsym : pyStrip (req.symbol.getD "") ≠ "")
    (hside : pyStrip (pyLower (req.side.getD "")) = "buy" ∨
             pyStrip (pyLower (req.side.getD "")) = "sell")
    (hord : pyStrip (pyLower (req.ordertype.getD "")) ≠ "") :
    (tv_webhook cfg o freshId now req st).resp =
      TvResponse.ok freshId (dequeAppend st.queue freshId).length ∧
    dictGet freshId (tv_webhook cfg o freshId now req st).st.signals =
      some { id := freshId, symbol := pyStrip (req.symbol.getD ""),
             side := pyStrip (pyLower (req.side.getD "")),
             ordertype := pyStrip (pyLower (req.ordertype.getD "")),
             timeframe := pyStrip (req.timeframe.getD ""),
             strategy := pyStrip (req.strategy.getD ""),
             price := req.price, ts := now, status := "pending" } := by
  unfold tv_webhook
  dsimp only
  rw [if_neg hsecret, if_neg (fun hne => hne hauth), if_neg hsym,
      if_neg (not_not_intro hside), if_neg hord]
  exact ⟨rfl, dictGet_dictInsert freshId _ st.signals⟩

/-- Witness for the amended C4: the missing-price non-market request is
accepted and stored with `price = none`. -/
theorem c4_witness :
    (tv_webhook cfgW oW "id1" 7 reqNoPrice initSt).resp = TvResponse.ok "id1" 1 ∧
    dictGet "id1" (tv_webhook cfgW oW "id1" 7 reqNoPrice initSt).st.signals =
      some { id := "id1", symbol := "EURUSD", side := "buy", ordertype := "buy_limit",
             timeframe := "", strategy := "", price := none, ts := 7, status := "pending" } :=
  c4_no_price_validation cfgW oW "id1" 7 reqNoPrice initSt (by decide) rfl (by decide)
    (Or.inl (by decide)) (by decide)

/-- C5: a DENY callback from the approver chat for a signal id present in
the store removes the id from both the queue and the store: a later
`get(id)` is absent, the id is nowhere in the queue, and in particular the
queue head is no longer that id. -/
theorem c5_deny_removes_everywhere (cfg : Config) (o : Nat → TgOutcome) (upd : TgUpdate)
    (st : St) (cq : CallbackQuery) (sid : String) (sig : Signal)
    (hcq : upd.callback_query = some cq)
    (hchat : cq.chat_id = cfg.TG_CHAT_ID)
    (hcolon : cq.data.data.contains ':' = true)
    (hsplit : splitFirstColon cq.data = ("DENY", sid))
    (hget : dictGet sid st.signals = some sig)
    (hkeys : (st.signals.map Prod.fst).count sid ≤ 1)
    (hqcount : st.queue.count sid ≤ 1) :
    dictGet sid (telegram_webhook cfg o upd st).st.signals = none ∧
    sid ∉ (telegram_webhook cfg o upd st).st.queue ∧
    (telegram_webhook cfg o upd st).st.queue.head? ≠ some sid := by
  unfold telegram_webhook
  rw [hcq]
  dsimp only
  rw [if_neg (fun hc => hc.2 hchat), if_neg (not_not_intro hcolon), hsplit]
  dsimp only
  rw [hget]
  dsimp only
  rw [if_neg (by decide : ¬("DENY" : String) = "APPROVE"), if_pos rfl]
  refine ⟨dictGet_dictPop_dictInsert sid _ st.signals hkeys,
          not_mem_queueRemove sid st.queue hqcount, fun hh => ?_⟩
  exact not_mem_queueRemove sid st.queue hqcount
    (List.mem_of_mem_head? (Option.mem_def.mpr hh))

/-- A DENY callback for signal `"A"` from the configured approver chat. -/
def cqDeny : CallbackQuery := ⟨some "cb1", "DENY:A", "12345"⟩

/-- Witness for C5 at a concrete denied signal. -/
theorem c5_witness :
    dictGet "A" (telegram_webhook cfgTg oW ⟨some cqDeny⟩ stW).st.signals = none ∧
    "A" ∉ (telegram_webhook cfgTg oW ⟨some cqDeny⟩ stW).st.queue ∧
    (telegram_webhook cfgTg oW ⟨some cqDeny⟩ stW).st.queue.head? ≠ some "A" :=
  c5_deny_removes_everywhere cfgTg oW ⟨some cqDeny⟩ stW cqDeny "A" sigW rfl rfl
    (by decide) (by decide) rfl (by decide) (by decide)

/-- State shape after an APPROVE callback from the approver chat: the
status of the target record becomes `"approved"`, everything else,
including the queue, is untouched. -/
theorem telegram_approve_state (cfg : Config) (o : Nat → TgOutcome) (upd : TgUpdate)
    (st : St) (cq : CallbackQuery) (sid : String) (sig : Signal)
    (hcq : upd.callback_query = some cq)
    (hchat : cq.chat_id = cfg.TG_CHAT_ID)
    (hcolon : cq.data.data.contains ':' = true)
    (hsplit : splitFirstColon cq.data = ("APPROVE", sid))
    (hget : dictGet sid st.signals = some sig) :
    (telegram_webhook cfg o upd st).st =
      ⟨st.queue, dictInsert sid { sig with status := "approved" } st.signals⟩ := by
  unfold telegram_webhook
  rw [hcq]
  dsimp only
  rw [if_neg (fun hc => hc.2 hchat), if_neg (not_not_intro hcolon), hsplit]
  dsimp only
  rw [hget]
  dsimp only
  rw [if_pos rfl]

/-- C6: an APPROVE callback from the approver chat for a stored signal sets
its status to `"approved"` while keeping the id present in both the queue
and the store, and a second APPROVE for the same id leaves the state
unchanged (idempotence). -/
theorem c6_approve_keeps_and_idempotent (cfg : Config) (o o' : Nat → TgOutcome)
    (upd : TgUpdate) (st : St) (cq : CallbackQuery) (sid : String) (sig : Signal)
    (hcq : upd.callback_query = some cq)
    (hchat : cq.chat_id = cfg.TG_CHAT_ID)
    (hcolon : cq.data.data.contains ':' = true)
    (hsplit : splitFirstColon cq.data = ("APPROVE", sid))
    (hget : dictGet sid st.signals = some sig)
    (hqueue : sid ∈ st.queue) :
    dictGet sid (telegram_webhook cfg o upd st).st.signals =
      some { sig with status := "approved" } ∧
    sid ∈ (telegram_webhook cfg o upd st).st.queue ∧
    (telegram_webhook cfg o upd st).st.queue = st.queue ∧
    (telegram_webhook cfg o' upd (telegram_webhook cfg o upd st).st).st =
      (telegram_webhook cfg o upd st).st := by
  have h1 := telegram_approve_state cfg o upd st cq sid sig hcq hchat hcolon hsplit hget
  have hget1 : dictGet sid (telegram_webhook cfg o upd st).st.signals =
      some { sig with status := "approved" } := by
    rw [h1]
    exact dictGet_dictInsert sid _ st.signals
  refine ⟨hget1, ?_, ?_, ?_⟩
  · rw [h1]
    exact hqueue
  · rw [h1]
  · have h2 := telegram_approve_state cfg o' upd (telegram_webhook cfg o upd st).st cq sid
      { sig with status := "approved" } hcq hchat hcolon hsplit hget1
    rw [h2, h1]
    dsimp only
    exact congrArg (St.mk st.queue) (dictInsert_dictInsert sid _ st.signals)

/-- An APPROVE callback for signal `"A"` from the configured approver chat. -/
def cqApprove : CallbackQuery := ⟨some "cb1", "APPROVE:A", "12345"⟩

/-- Witness for C6 at a concrete approved signal. -/
theorem c6_witness :
    dictGet "A" (telegram_webhook cfgTg oW ⟨some cqApprove⟩ stW).st.signals =
      some { id := "A", symbol := "EURUSD", side := "buy", ordertype := "market",
             timeframe := "", strategy := "", price := none, ts := 0,
             status := "approved" } ∧
    "A" ∈ (telegram_webhook cfgTg oW ⟨some cqApprove⟩ stW).st.queue ∧
    (telegram_webhook cfgTg oW ⟨some cqApprove⟩ stW).st.queue = stW.queue ∧
    (telegram_webhook cfgTg oW ⟨some cqApprove⟩
        (telegram_webhook cfgTg oW ⟨some cqApprove⟩ stW).st).st =
      (telegram_webhook cfgTg oW ⟨some cqApprove⟩ stW).st :=
  c6_approve_keeps_and_idempotent cfgTg oW oW ⟨some cqApprove⟩ stW cqApprove "A" sigW rfl rfl
    (by decide) (by decide) rfl (by decide)

/-- C7: in every state reachable from process start by any sequence of
requests, no record held in the store has status `"denied"`, and `GET
/next` never returns a signal whose status is `"denied"`. -/
theorem c7_no_denied_reachable (cfg : Config) (ops : List Op) :
    (∀ p ∈ (run cfg ops).signals, p.2.status ≠ "denied") ∧
    ∀ sig : Signal, (next_signal (run cfg ops)).2.signal = some sig →
      sig.status ≠ "denied" := by
  refine ⟨noDenied_run cfg ops, fun sig hsig => ?_⟩
  obtain ⟨sid, hmem⟩ := next_signal_some (run cfg ops) sig hsig
  exact noDenied_run cfg ops (sid, sig) hmem

/-- Witness for C7: after one concrete ingestion, `GET /next` returns the
pending signal, whose status the theorem shows is not `"denied"`. -/
theorem c7_witness : sigW.status ≠ "denied" :=
  (c7_no_denied_reachable cfgW [Op.tv oW "A" 0 reqW]).2 sigW rfl

/-- C8: every `POST /tg` request — no callback, unauthorized chat, missing
colon, unknown id, unknown action, or a processed APPROVE/DENY — is
answered HTTP 200 with body `ok: true`. -/
theorem c8_tg_always_http200_ok (cfg : Config) (o : Nat → TgOutcome) (upd : TgUpdate)
    (st : St) : (telegram_webhook cfg o upd st).resp = ⟨200, true⟩ := by
  unfold telegram_webhook
  split
  · rfl
  · dsimp only
    split_ifs
    all_goals first | rfl | (split <;> rfl)

/-- C9: the committed state change and the HTTP response of an ingestion
(`POST /tv`) and of an approval callback (`POST /tg`) are identical under
any two outcomes of the outbound Telegram notification calls (server
response, non-success response, or a raised exception). -/
theorem c9_notification_outcome_independence (cfg : Config) (o₁ o₂ : Nat → TgOutcome)
    (freshId : String) (now : Nat) (req : TvRequest) (upd : TgUpdate) (st : St) :
    ((tv_webhook cfg o₁ freshId now req st).st = (tv_webhook cfg o₂ freshId now req st).st ∧
     (tv_webhook cfg o₁ freshId now req st).resp =
       (tv_webhook cfg o₂ freshId now req st).resp) ∧
    ((telegram_webhook cfg o₁ upd st).st = (telegram_webhook cfg o₂ upd st).st ∧
     (telegram_webhook cfg o₁ upd st).resp = (telegram_webhook cfg o₂ upd st).resp) :=
  ⟨tv_oracle_irrel cfg o₁ o₂ freshId now req st, tg_oracle_irrel cfg o₁ o₂ upd st⟩

/-- C10: when the queue head has no record in the store, `GET /next` pops
that head off the queue and reports `ok: true` with a null signal. -/
theorem c10_next_pops_dangling_head (st : St) (sid : String) (rest : List String)
    (hq : st.queue = sid :: rest) (hget : dictGet sid st.signals = none) :
    next_signal st = (⟨rest, st.signals⟩, ⟨true, none⟩) := by
  unfold next_signal
  rw [hq]
  dsimp only
  rw [hget]

/-- A state whose queue head `"B"` has no store record. -/
def stDangling : St := ⟨["B", "A"], [("A", sigW)]⟩

/-- Witness for C10 at a concrete dangling queue head. -/
theorem c10_witness :
    next_signal stDangling = (⟨["A"], stDangling.signals⟩, ⟨true, none⟩) :=
  c10_next_pops_dangling_head stDangling "B" ["A"] rfl rfl

/-- The request stream for the overflow scenario: `n` valid market-order
ingestions with distinct fresh ids `"0"`, `"1"`, …. -/
def overflowOps (n : Nat) : List Op :=
  (List.range n).map (fun i => Op.tv oW (toString i) i reqW)

set_option maxRecDepth 8000 in
/-- C1: the claim states that when ingestions push the queue past its
capacity 200, every evicted id is purged from the store in the same
operation, leaving no orphaned records.  The code violates this: after 201
valid ingestions the queue holds 200 ids, but the store still holds all
201 records — the evicted id `"0"` is no longer queued yet its record
remains in the store (an orphan). -/
theorem c1_overflow_creates_orphan :
    (run cfgW (overflowOps 201)).queue.length = 200 ∧
    (run cfgW (overflowOps 201)).signals.length = 201 ∧
    (dictGet "0" (run cfgW (overflowOps 201)).signals).isSome = true ∧
    "0" ∉ (run cfgW (overflowOps 201)).queue := by
  decide
